import Mathlib

/-!
Verification development for the vibe-git MCP server core
(`src/vibe_git/main.py`, `state_utils.py`, `git_utils.py`).

The Python code is shallowly embedded: session states become an inductive
type, git/`gh` subprocess execution becomes an oracle environment passed
explicitly, the stop workflow becomes a pure function that threads the
oracle state and records the command trace, and the file-watcher event
handler becomes a pure step function over handler state with rational
timestamps.  Python early `return`s become distinct constructors of a
result-message type whose rendering reproduces the returned strings.
-/

namespace VibeGit

/-- Opaque handle standing for a `watchdog` observer object. -/
abbrev ObserverId := Nat

/-- Opaque handle standing for a `threading.Event` object. -/
abbrev EventId := Nat

/-- `SessionState = IdleState | VibingState | DirtyState` from
`main.py` / `state_types.py`.  `VibingState` carries the branch name plus
the observer and commit-event handles; `DirtyState` carries the branch
name and the change summary. -/
inductive SessionState where
  | idle : SessionState
  | vibing (branch_name : String) (observer : ObserverId) (commit_event : EventId) : SessionState
  | dirty (branch_name : String) (changes : String) : SessionState
deriving DecidableEq, Repr

/-- `isinstance(s, IdleState)`. -/
def SessionState.isIdle : SessionState → Bool
  | .idle => true
  | _ => false

/-- `isinstance(s, VibingState)`. -/
def SessionState.isVibing : SessionState → Bool
  | .vibing _ _ _ => true
  | _ => false

/-- `isinstance(s, DirtyState)`. -/
def SessionState.isDirty : SessionState → Bool
  | .dirty _ _ => true
  | _ => false

/-- `VibeSession` dataclass: a mutable cell holding the session state. -/
structure VibeSession where
  state : SessionState
deriving DecidableEq, Repr

/-- `VibeSession.transition_to` from `main.py` (and `state_types.py`):
an unconditional assignment `self.state = new_state`, with no validation. -/
def VibeSession.transition_to (s : VibeSession) (new_state : SessionState) : VibeSession :=
  { s with state := new_state }

/-- `get_state_name` from `state_utils.py`. -/
def get_state_name : SessionState → String
  | .idle => "idle"
  | .vibing _ _ _ => "vibing"
  | .dirty _ _ => "dirty"

/-- `can_transition_to` from `state_utils.py`: the three `plum` overloads,
one per source-state class, each an `isinstance` test on the target. -/
def can_transition_to (from_state to_state : SessionState) : Bool :=
  match from_state with
  | .idle => to_state.isVibing || to_state.isDirty
  | .vibing _ _ _ => to_state.isIdle
  | .dirty _ _ => to_state.isIdle || to_state.isVibing

/-- `validate_state_transition` from `state_utils.py`: raises
`ValueError("Invalid state transition from {from} to {to}")` when the
transition is not allowed.  The raise is embedded as `Except.error`. -/
def validate_state_transition (from_state to_state : SessionState) : Except String Unit :=
  if can_transition_to from_state to_state then Except.ok ()
  else Except.error
    ("Invalid state transition from " ++ get_state_name from_state ++
      " to " ++ get_state_name to_state)

/-- Constructor tag of a session state, for stating which ordered pairs of
state *kinds* are legal transitions. -/
inductive StateTag where
  | idle | vibing | dirty
deriving DecidableEq, Repr

/-- The tag of a state. -/
def tagOf : SessionState → StateTag
  | .idle => .idle
  | .vibing _ _ _ => .vibing
  | .dirty _ _ => .dirty

/-- The five transition pairs the specification declares legal. -/
def legalTagPairs : List (StateTag × StateTag) :=
  [(.idle, .vibing), (.idle, .dirty), (.vibing, .idle), (.dirty, .idle), (.dirty, .vibing)]

/-- `atomic_state_transition` from `main.py`: a context manager that saves
`session.state`, runs the body, and on an exception restores the saved
state and re-raises.  The body is embedded as a function from the current
state to either a new state (normal exit) or an exception paired with
whatever intermediate state the body had mutated the session to when it
threw.  The result is the propagated outcome together with the session
state observable afterwards. -/
def atomic_state_transition (s₀ : SessionState)
    (body : SessionState → Except (String × SessionState) SessionState) :
    Except String Unit × SessionState :=
  match body s₀ with
  | .ok s₁ => (.ok (), s₁)
  | .error (e, _) => (.error e, s₀)

/-- Python `str.strip()`: drop leading and trailing whitespace. -/
def pyStrip (s : String) : String :=
  String.mk (((s.data.dropWhile Char.isWhitespace).reverse.dropWhile Char.isWhitespace).reverse)

/-- Value of a non-empty all-digit character sequence. -/
def digitsVal? (cs : List Char) : Option Nat :=
  if cs = [] then none
  else cs.foldl
    (fun acc c => acc.bind (fun n => if c.isDigit then some (n * 10 + (c.toNat - 48)) else none))
    (some 0)

/-- Python `int(s)` on an already-stripped string: an optional sign
followed by at least one digit; anything else raises `ValueError`,
embedded as `none`. -/
def pyParseInt? (s : String) : Option Int :=
  match s.data with
  | '-' :: cs => (digitsVal? cs).map (fun n => -(n : Int))
  | '+' :: cs => (digitsVal? cs).map (fun n => (n : Int))
  | cs => (digitsVal? cs).map (fun n => (n : Int))

/-- Outcome of `subprocess.run` as observed by `run_command`: either the
call raised (missing binary, I/O error, ...) or a process completed with a
return code and captured stdout/stderr. -/
inductive ExecOutcome where
  | exc (msg : String) : ExecOutcome
  | completed (returncode : Int) (stdout stderr : String) : ExecOutcome
deriving DecidableEq, Repr

/-- `run_command` from `main.py` / `git_utils.py`, as a function of the
subprocess outcome: success is `returncode == 0`, output is
`stdout.strip() or stderr.strip()`, and a caught exception yields
`(False, str(e))`. -/
def run_command : ExecOutcome → Bool × String
  | .exc e => (false, e)
  | .completed rc stdout stderr =>
      (rc == 0, if pyStrip stdout = "" then pyStrip stderr else pyStrip stdout)

/-! ### File watcher (`VibeFileHandler`) -/

/-- `Path.relative_to`: paths are modelled as lists of components; the
relative path exists exactly when the repository path is a prefix, and the
Python `ValueError` on a non-subpath becomes `none`. -/
def relative_to (path repo : List String) : Option (List String) :=
  if repo.isPrefixOf path then some (path.drop repo.length) else none

/-- `VibeFileHandler.__init__` sets `self.min_commit_interval = 0.0`. -/
def min_commit_interval : ℚ := 0

/-- A filesystem event as seen by `on_any_event`: the directory flag and
the source path (absolute, as components). -/
structure FsEvent where
  is_directory : Bool
  src_path : List String
deriving DecidableEq, Repr

/-- The mutable part of a `VibeFileHandler` together with the shared
commit signal: `last_commit_time` starts at `0.0`, and `signal_count`
counts the `commit_event.set()` invocations. -/
structure HandlerState where
  last_commit_time : ℚ
  signal_count : Nat
deriving DecidableEq, Repr

/-- `VibeFileHandler.should_ignore_path`: ignore if `.git` is among the
path components; otherwise ask `git check-ignore` on the path relative to
the repository (the oracle `checkIgnore` returns that command's success
flag, where exit code 0 means "ignored"); a path outside the repository
(raising `ValueError`) is ignored. -/
def should_ignore_path (repo : List String) (checkIgnore : List String → Bool)
    (path : List String) : Bool :=
  if ".git" ∈ path then true
  else
    match relative_to path repo with
    | some rel => checkIgnore rel
    | none => true

/-- `VibeFileHandler.on_any_event`: skip directory events and ignorable
paths; rate-limit by `min_commit_interval`; otherwise record the event
time and set the commit signal. -/
def on_any_event (repo : List String) (checkIgnore : List String → Bool)
    (h : HandlerState) (event : FsEvent) (current_time : ℚ) : HandlerState :=
  if event.is_directory then h
  else if should_ignore_path repo checkIgnore event.src_path then h
  else if current_time - h.last_commit_time < min_commit_interval then h
  else { last_commit_time := current_time, signal_count := h.signal_count + 1 }

/-! ### Starting while already vibing -/

/-- `VibeStartResult` dataclass (the fields the start overloads set). -/
structure VibeStartResult where
  success : Bool
  branch_name : Option String
  message : String
deriving DecidableEq, Repr

/-- The `start_vibing_from_state` overload for `VibingState`
(`main.py` lines 387-395): report the active session; the body contains
no `run_command` call and no session mutation. -/
def start_vibing_from_state_vibing (state_branch : String) : VibeStartResult :=
  { success := true
    branch_name := some state_branch
    message := "Already vibing! Session is active and auto-committing changes." }

/-- One `start_vibing()` call dispatched on a `VibingState`: the session
state is returned unchanged, the result comes from the vibing overload,
and the list of issued git commands is empty. -/
def start_call_vibing (branch : String) (obs : ObserverId) (ev : EventId) :
    SessionState × VibeStartResult × List (List String) :=
  (SessionState.vibing branch obs ev, start_vibing_from_state_vibing branch, [])

/-- A sequence of `n` `start_vibing()` calls made while the session is
`Vibing`: each call dispatches on the current (vibing) state; the returned
results and the concatenated command traces are accumulated. -/
def iterate_start_while_vibing :
    Nat → String → ObserverId → EventId →
      SessionState × List VibeStartResult × List (List String)
  | 0, branch, obs, ev => (SessionState.vibing branch obs ev, [], [])
  | n + 1, branch, obs, ev =>
      match iterate_start_while_vibing n branch obs ev with
      | (SessionState.vibing b o e, results, trace) =>
          match start_call_vibing b o e with
          | (s, r, t) => (s, results ++ [r], trace ++ t)
      | other => other

/-! ### The stop workflow (`stop_vibing` in `main.py`) -/

/-- Oracle environment for external processes: `repoOk` is whether
`find_git_repo()` succeeds; `exec` runs one command returning
`(success, output)` (the `run_command` contract) and the next git world;
`currentBranch` inspects the world's actual current branch. -/
structure GitEnv (σ : Type) where
  repoOk : Bool
  exec : List String → σ → (Bool × String) × σ
  currentBranch : σ → String

/-- The distinct return sites of `stop_vibing`, one constructor per
Python `return` statement, carrying the interpolated data. -/
inductive StopMsg where
  | notVibing : StopMsg
  | errFindingBranchPoint (out : String) : StopMsg
  | errResettingToBase (out : String) : StopMsg
  | errCreatingSquashCommit (out : String) : StopMsg
  | errRunningHooks (out : String) : StopMsg
  | errCheckingOutMain (out : String) : StopMsg
  | errPullingMain (out : String) : StopMsg
  | errCheckingOutVibeBranch (out : String) : StopMsg
  | errRebaseAndPushFailed (rebase_out push_out : String) : StopMsg
  | errForcePushing (out : String) : StopMsg
  | errSwitchingBackToMain (out : String) : StopMsg
  | errException (e : String) : StopMsg
  | stopped (pr_url : Option String) (commit_message : String)
      (squashed_commits : Int) (had_conflicts : Bool) (warnings : List String) : StopMsg
deriving DecidableEq, Repr

/-- The hard-failure returns of the stop workflow at steps 1-4 and 6
(everything except the not-vibing early return, the exception handler,
and the success return). -/
def isStepError : StopMsg → Bool
  | .errFindingBranchPoint _ => true
  | .errResettingToBase _ => true
  | .errCreatingSquashCommit _ => true
  | .errRunningHooks _ => true
  | .errCheckingOutMain _ => true
  | .errPullingMain _ => true
  | .errCheckingOutVibeBranch _ => true
  | .errRebaseAndPushFailed _ _ => true
  | .errForcePushing _ => true
  | .errSwitchingBackToMain _ => true
  | _ => false

/-- Everything observable about one `stop_vibing` call: the return
message, the session state afterwards, the final git world, the commands
issued in order, and whether the watcher observer was stopped. -/
structure StopOutcome (σ : Type) where
  msg : StopMsg
  finalSession : SessionState
  finalGit : σ
  trace : List (List String)
  observerStopped : Bool

/-- `parse_commit_message`: title is the first line of the stripped
message, body is the full message. -/
def parse_commit_message (message : String) : String × String :=
  ((pyStrip message).splitOn "\n" |>.headD message, message)

/-- Step 6 of `stop_vibing`: final `git checkout main`; on failure return
the "Error switching back to main" result leaving the session vibing; on
success stop the observer, wake the worker, and reset the state to
`Idle`, returning the success result. -/
def stopFinish {σ : Type} (env : GitEnv σ) (g : σ) (branch : String) (obs : ObserverId)
    (ev : EventId) (commit_message : String) (squashed : Int) (had_conflicts : Bool)
    (warnings : List String) (pr_url : Option String) (trace : List (List String)) :
    StopOutcome σ :=
  let r := env.exec ["git", "checkout", "main"] g
  let trace := trace ++ [["git", "checkout", "main"]]
  if r.1.1 = false then
    ⟨.errSwitchingBackToMain r.1.2, .vibing branch obs ev, r.2, trace, false⟩
  else
    ⟨.stopped pr_url commit_message squashed had_conflicts warnings, .idle, r.2, trace, true⟩

/-- Step 5 of `stop_vibing`: parse the commit message and attempt PR
creation with `gh`; failure or empty output just leaves `pr_url = None`
(non-fatal), then proceed to the final checkout. -/
def stopCreatePR {σ : Type} (env : GitEnv σ) (g : σ) (branch : String) (obs : ObserverId)
    (ev : EventId) (commit_message : String) (squashed : Int) (had_conflicts : Bool)
    (warnings : List String) (trace : List (List String)) : StopOutcome σ :=
  let pr := parse_commit_message commit_message
  let r := env.exec ["gh", "pr", "create", "--title", pr.1, "--body", pr.2] g
  let trace := trace ++ [["gh", "pr", "create", "--title", pr.1, "--body", pr.2]]
  let pr_url := if r.1.1 = true ∧ r.1.2 ≠ "" then some (pyStrip r.1.2) else none
  stopFinish env r.2 branch obs ev commit_message squashed had_conflicts warnings pr_url trace

/-- Step 4 of `stop_vibing` after the vibe branch is checked out again:
attempt `git rebase main`; on failure abort the rebase, record the
conflict warning and force-push the unrebased branch; on success
force-push the rebased branch; a failed push is a hard failure. -/
def stopRebasePush {σ : Type} (env : GitEnv σ) (g : σ) (branch : String) (obs : ObserverId)
    (ev : EventId) (commit_message : String) (squashed : Int)
    (trace : List (List String)) : StopOutcome σ :=
  let rb := env.exec ["git", "rebase", "main"] g
  let trace := trace ++ [["git", "rebase", "main"]]
  if rb.1.1 = false then
    let ab := env.exec ["git", "rebase", "--abort"] rb.2
    let trace := trace ++ [["git", "rebase", "--abort"]]
    let warnings := ["Had to force push due to rebase conflicts. Review the PR carefully."]
    let p := env.exec ["git", "push", "-f", "-u", "origin", branch] ab.2
    let trace := trace ++ [["git", "push", "-f", "-u", "origin", branch]]
    if p.1.1 = false then
      ⟨.errRebaseAndPushFailed rb.1.2 p.1.2, .vibing branch obs ev, p.2, trace, false⟩
    else
      stopCreatePR env p.2 branch obs ev commit_message squashed true warnings trace
  else
    let p := env.exec ["git", "push", "-f", "-u", "origin", branch] rb.2
    let trace := trace ++ [["git", "push", "-f", "-u", "origin", branch]]
    if p.1.1 = false then
      ⟨.errForcePushing p.1.2, .vibing branch obs ev, p.2, trace, false⟩
    else
      stopCreatePR env p.2 branch obs ev commit_message squashed false [] trace

/-- Steps 3-4 of `stop_vibing`: checkout main, pull latest main, checkout
the vibe branch again; each failure is a hard failure with its own named
error. -/
def stopCheckoutAndRebase {σ : Type} (env : GitEnv σ) (g : σ) (branch : String)
    (obs : ObserverId) (ev : EventId) (commit_message : String) (squashed : Int)
    (trace : List (List String)) : StopOutcome σ :=
  let co := env.exec ["git", "checkout", "main"] g
  let trace := trace ++ [["git", "checkout", "main"]]
  if co.1.1 = false then
    ⟨.errCheckingOutMain co.1.2, .vibing branch obs ev, co.2, trace, false⟩
  else
    let pl := env.exec ["git", "pull", "origin", "main"] co.2
    let trace := trace ++ [["git", "pull", "origin", "main"]]
    if pl.1.1 = false then
      ⟨.errPullingMain pl.1.2, .vibing branch obs ev, pl.2, trace, false⟩
    else
      let cb := env.exec ["git", "checkout", branch] pl.2
      let trace := trace ++ [["git", "checkout", branch]]
      if cb.1.1 = false then
        ⟨.errCheckingOutVibeBranch cb.1.2, .vibing branch obs ev, cb.2, trace, false⟩
      else
        stopRebasePush env cb.2 branch obs ev commit_message squashed trace

/-- Step 2 of `stop_vibing`: count commits since the merge-base; when the
count parses and exceeds 1, soft-reset to the base and create the squash
commit (`--no-verify`), then amend to let hooks run; an unparsable count
raises `ValueError`, landing in the exception handler which resets the
state to `Idle`. -/
def stopSquash {σ : Type} (env : GitEnv σ) (g : σ) (branch : String) (obs : ObserverId)
    (ev : EventId) (commit_message : String) (base : String)
    (trace : List (List String)) : StopOutcome σ :=
  let rl := env.exec ["git", "rev-list", "--count", base ++ "..HEAD"] g
  let trace := trace ++ [["git", "rev-list", "--count", base ++ "..HEAD"]]
  if rl.1.1 = true then
    match pyParseInt? (pyStrip rl.1.2) with
    | none =>
        ⟨.errException ("invalid literal for int() with base 10: " ++ pyStrip rl.1.2),
          .idle, rl.2, trace, true⟩
    | some n =>
        if 1 < n then
          let rs := env.exec ["git", "reset", "--soft", base] rl.2
          let trace := trace ++ [["git", "reset", "--soft", base]]
          if rs.1.1 = true then
            let c1 := env.exec ["git", "commit", "-m", commit_message, "--no-verify"] rs.2
            let trace := trace ++ [["git", "commit", "-m", commit_message, "--no-verify"]]
            if c1.1.1 = false then
              ⟨.errCreatingSquashCommit c1.1.2, .vibing branch obs ev, c1.2, trace, false⟩
            else
              let c2 := env.exec ["git", "commit", "--amend", "--no-edit"] c1.2
              let trace := trace ++ [["git", "commit", "--amend", "--no-edit"]]
              if c2.1.1 = false then
                ⟨.errRunningHooks c2.1.2, .vibing branch obs ev, c2.2, trace, false⟩
              else
                stopCheckoutAndRebase env c2.2 branch obs ev commit_message n trace
          else
            ⟨.errResettingToBase rs.1.2, .vibing branch obs ev, rs.2, trace, false⟩
        else
          stopCheckoutAndRebase env rl.2 branch obs ev commit_message 0 trace
  else
    stopCheckoutAndRebase env rl.2 branch obs ev commit_message 0 trace

/-- The body of `stop_vibing` for a `Vibing` session: a failing
`find_git_repo()` raises into the exception handler (observer stopped,
state reset to `Idle`); otherwise step 1 finds the merge-base against
`main`, falling back to `master`, and hands over to the squash step. -/
def stopFromVibing {σ : Type} (env : GitEnv σ) (g : σ) (branch : String)
    (obs : ObserverId) (ev : EventId) (commit_message : String) : StopOutcome σ :=
  if env.repoOk = false then
    ⟨.errException "Not in a git repository", .idle, g, [], true⟩
  else
    let m1 := env.exec ["git", "merge-base", "main", "HEAD"] g
    let trace := [["git", "merge-base", "main", "HEAD"]]
    if m1.1.1 = false then
      let m2 := env.exec ["git", "merge-base", "master", "HEAD"] m1.2
      let trace := trace ++ [["git", "merge-base", "master", "HEAD"]]
      if m2.1.1 = false then
        ⟨.errFindingBranchPoint m2.1.2, .vibing branch obs ev, m2.2, trace, false⟩
      else
        stopSquash env m2.2 branch obs ev commit_message (pyStrip m2.1.2) trace
    else
      stopSquash env m1.2 branch obs ev commit_message (pyStrip m1.1.2) trace

/-- `stop_vibing(commit_message)` from `main.py`: the not-vibing early
return issues no commands; from `Vibing` the workflow proper runs. -/
def stop_vibing {σ : Type} (env : GitEnv σ) (g : σ) (sess : SessionState)
    (commit_message : String) : StopOutcome σ :=
  match sess with
  | .idle => ⟨.notVibing, .idle, g, [], false⟩
  | .dirty b c => ⟨.notVibing, .dirty b c, g, [], false⟩
  | .vibing branch obs ev => stopFromVibing env g branch obs ev commit_message

/-- An apostrophe, kept out of string literals. -/
def apos : String := String.singleton (Char.ofNat 39)

/-- The strings the Python `return` statements produce, per return site
(the success case follows `VibeStopResult.__str__`). -/
def renderStopMsg : StopMsg → String
  | .notVibing => "Not currently vibing. You can start a vibe session with start_vibing()."
  | .errFindingBranchPoint out => "❌ Error finding branch point: " ++ out
  | .errResettingToBase out => "❌ Error resetting to base commit: " ++ out
  | .errCreatingSquashCommit out => "❌ Error creating squash commit: " ++ out
  | .errRunningHooks out => "❌ Error running hooks on squash commit: " ++ out
  | .errCheckingOutMain out => "❌ Error checking out main: " ++ out
  | .errPullingMain out => "❌ Error pulling latest main: " ++ out
  | .errCheckingOutVibeBranch out => "❌ Error checking out vibe branch: " ++ out
  | .errRebaseAndPushFailed rebase_out push_out =>
      "❌ Error: Rebase failed and couldn" ++ apos ++ "t force push: " ++ rebase_out ++
        "\nPush error: " ++ push_out
  | .errForcePushing out => "❌ Error force pushing rebased branch: " ++ out
  | .errSwitchingBackToMain out => "❌ Error switching back to main: " ++ out
  | .errException e => "❌ Error stopping vibe session: " ++ e
  | .stopped pr_url commit_message _ _ warnings =>
      "🏁 Stopped vibing! Squashed commits into: " ++ apos ++ commit_message ++ apos ++
        ", rebased on main, and pushed to origin." ++
        (match pr_url with
          | some url => "\n📋 Created PR: " ++ url
          | none => "") ++
        String.join (warnings.map (fun w => "\n⚠️ " ++ w))

/-! ### Theorems -/

/-- C3: if the body of an atomic state transition raises partway through
(having possibly mutated the session to some intermediate state), the
observable session state afterwards equals its pre-transition value and
the exception propagates to the caller. -/
theorem atomic_transition_restores_on_error
    (s₀ : SessionState) (body : SessionState → Except (String × SessionState) SessionState)
    (e : String) (sp : SessionState) (h : body s₀ = .error (e, sp)) :
    atomic_state_transition s₀ body = (.error e, s₀) := by
  unfold atomic_state_transition
  rw [h]

/-- Witness for C3: a body that mutates the state to `Idle` and then
throws; the wrapper restores the original `Vibing` state and re-raises. -/
theorem atomic_transition_restores_on_error_witness :
    atomic_state_transition (SessionState.vibing "vibe-1" 0 0)
      (fun _ => .error ("boom", SessionState.idle)) =
      (.error "boom", SessionState.vibing "vibe-1" 0 0) :=
  atomic_transition_restores_on_error _ _ "boom" SessionState.idle rfl

/-- Counterexample for C4: `Vibing → Dirty` is not a legal transition,
yet applying it through `VibeSession.transition_to` raises nothing and
simply installs the illegal target state. -/
theorem transition_application_does_not_raise_cex :
    can_transition_to (SessionState.vibing "vibe-1" 0 0) (SessionState.dirty "main" "M x") = false
    ∧ (VibeSession.transition_to ⟨SessionState.vibing "vibe-1" 0 0⟩
        (SessionState.dirty "main" "M x")).state = SessionState.dirty "main" "M x" :=
  ⟨rfl, rfl⟩

/-- C4 (amended): `can_transition_to` accepts exactly the five pairs
{Idle→Vibing, Idle→Dirty, Vibing→Idle, Dirty→Idle, Dirty→Vibing};
`validate_state_transition` rejects every other ordered pair with an
error naming both states; but `VibeSession.transition_to` applies any
transition unconditionally without raising. -/
theorem transition_relation_and_validator (fs ts : SessionState) :
    (can_transition_to fs ts = true ↔ (tagOf fs, tagOf ts) ∈ legalTagPairs)
    ∧ (can_transition_to fs ts = false →
        validate_state_transition fs ts =
          .error ("Invalid state transition from " ++ get_state_name fs ++
            " to " ++ get_state_name ts))
    ∧ (VibeSession.transition_to ⟨fs⟩ ts).state = ts := by
  refine ⟨?_, ?_, rfl⟩
  · cases fs <;> cases ts <;>
      simp [can_transition_to, tagOf, legalTagPairs,
        SessionState.isIdle, SessionState.isVibing, SessionState.isDirty]
  · intro h
    simp [validate_state_transition, h]

/-- Witness for C4 (amended): the validator rejects `Vibing → Dirty`
with the message naming both state names. -/
theorem transition_relation_and_validator_witness :
    validate_state_transition (SessionState.vibing "vibe-1" 0 0)
      (SessionState.dirty "main" "M x") =
      .error "Invalid state transition from vibing to dirty" :=
  (transition_relation_and_validator _ _).2.1 rfl

/-- C5: calling stop in any state that is not `Vibing` returns the
not-vibing message, issues no commands, leaves the session state and the
git world untouched, and does not stop any observer; the message renders
to the "not vibing" report. -/
theorem stop_not_vibing_noop {σ : Type} (env : GitEnv σ) (g : σ) (sess : SessionState)
    (cm : String) (h : sess.isVibing = false) :
    stop_vibing env g sess cm = ⟨.notVibing, sess, g, [], false⟩
    ∧ renderStopMsg .notVibing =
        "Not currently vibing. You can start a vibe session with start_vibing()." := by
  refine ⟨?_, rfl⟩
  cases sess with
  | idle => rfl
  | vibing b o e => simp [SessionState.isVibing] at h
  | dirty b c => rfl

/-- An environment over a trivial git world, used to evaluate the stop
workflow at concrete inputs. -/
def unitEnv : GitEnv Unit :=
  { repoOk := true
    exec := fun _ g => ((false, "fatal: unable to run"), g)
    currentBranch := fun _ => "main" }

/-- Witness for C5: stop called while `Idle` is a recorded no-op. -/
theorem stop_not_vibing_noop_witness :
    stop_vibing unitEnv () SessionState.idle "done" =
      ⟨.notVibing, SessionState.idle, (), [], false⟩ :=
  (stop_not_vibing_noop unitEnv () SessionState.idle "done" rfl).1

/-- Counterexample for C6: a completed process with exit code 1,
stdout "out" and stderr "err" is reported with the trimmed stdout as
output, not the captured stderr (and no error description exists, since
nothing was thrown). -/
theorem run_command_failure_output_cex :
    run_command (.completed 1 "out" "err") = (false, "out") ∧ "out" ≠ "err" := by
  refine ⟨?_, by decide⟩
  decide

/-- C6 (amended): the command runner is a total function (never throws);
success holds exactly for a completed process with exit code 0; a caught
exception is reported as failure with the error's description as output;
and for every completed process — successful or not — the output is the
trimmed stdout if non-empty, otherwise the trimmed stderr. -/
theorem run_command_contract (o : ExecOutcome) :
    ((run_command o).1 = true ↔ ∃ stdout stderr, o = .completed 0 stdout stderr)
    ∧ (∀ e, o = .exc e → run_command o = (false, e))
    ∧ (∀ rc stdout stderr, o = .completed rc stdout stderr →
        run_command o =
          (rc == 0, if pyStrip stdout = "" then pyStrip stderr else pyStrip stdout)) := by
  refine ⟨?_, ?_, ?_⟩
  · cases o with
    | exc e => simp [run_command]
    | completed rc stdout stderr => simp [run_command]
  · rintro e rfl
    rfl
  · rintro rc stdout stderr rfl
    rfl

/-- Witness for C6 (amended): a raised `FileNotFoundError` becomes a
failure whose output is the description. -/
theorem run_command_contract_witness :
    run_command (.exc "No such file or directory") =
      (false, "No such file or directory") :=
  (run_command_contract _).2.1 _ rfl

/-- A path passes the watcher filter exactly when it has no `.git`
component, lies inside the repository, and `check-ignore` did not report
it ignored. -/
theorem should_ignore_path_eq_false_iff (repo : List String)
    (checkIgnore : List String → Bool) (path : List String) :
    should_ignore_path repo checkIgnore path = false ↔
      ".git" ∉ path ∧
        ∃ rel, relative_to path repo = some rel ∧ checkIgnore rel = false := by
  unfold should_ignore_path
  split
  · rename_i hmem
    simp [hmem]
  · rename_i hmem
    cases hrel : relative_to path repo with
    | none => simp [hrel, hmem]
    | some rel => simp [hrel, hmem]

/-- C7: the commit signal is raised only for a non-directory event whose
path has no `.git` component, lies inside the repository, and which
`git check-ignore` did not report as ignored; and a path on which
`check-ignore` exits non-zero (resolved as "not ignored") can still
trigger the signal. -/
theorem commit_signal_conditions :
    (∀ (repo : List String) (checkIgnore : List String → Bool) (h : HandlerState)
        (event : FsEvent) (t : ℚ),
      (on_any_event repo checkIgnore h event t).signal_count ≠ h.signal_count →
        event.is_directory = false ∧ ".git" ∉ event.src_path ∧
          ∃ rel, relative_to event.src_path repo = some rel ∧ checkIgnore rel = false)
    ∧ (on_any_event ["repo"] (fun _ => false) ⟨0, 0⟩ ⟨false, ["repo", "file.txt"]⟩ 1).signal_count
        = 1 := by
  constructor
  · intro repo checkIgnore h event t hne
    unfold on_any_event at hne
    split at hne
    · exact absurd rfl hne
    · split at hne
      · exact absurd rfl hne
      · rename_i hd hig
        have hd' : event.is_directory = false := by simpa using hd
        have hig' : should_ignore_path repo checkIgnore event.src_path = false := by
          simpa using hig
        obtain ⟨h1, h2⟩ := (should_ignore_path_eq_false_iff _ _ _).mp hig'
        exact ⟨hd', h1, h2⟩
  · unfold on_any_event
    have hig : should_ignore_path ["repo"] (fun _ => false) ["repo", "file.txt"] = false := by
      decide
    have hdb : ¬ ((1 : ℚ) < min_commit_interval) := by
      simp [min_commit_interval]
    simp [hig, hdb]

/-- Witness for C7: at a concrete non-directory event inside the
repository whose `check-ignore` call fails (non-zero exit), the signal
fires and the theorem's necessary conditions evaluate as stated. -/
theorem commit_signal_conditions_witness :
    (⟨false, ["repo", "file.txt"]⟩ : FsEvent).is_directory = false
    ∧ ".git" ∉ (⟨false, ["repo", "file.txt"]⟩ : FsEvent).src_path
    ∧ ∃ rel, relative_to (⟨false, ["repo", "file.txt"]⟩ : FsEvent).src_path ["repo"] = some rel
        ∧ (fun _ => false : List String → Bool) rel = false :=
  commit_signal_conditions.1 ["repo"] (fun _ => false) ⟨0, 0⟩ ⟨false, ["repo", "file.txt"]⟩ 1
    (by rw [commit_signal_conditions.2]; decide)

/-- C9: for two non-ignored file events handled in order with the
handler's recorded commit time at most the first event's time, events
closer than the debounce interval raise the signal at most once, and
events separated by more than the interval each raise it. -/
theorem debounce_two_events (repo : List String) (checkIgnore : List String → Bool)
    (h : HandlerState) (e1 e2 : FsEvent) (t1 t2 : ℚ)
    (h1d : e1.is_directory = false) (h2d : e2.is_directory = false)
    (h1i : should_ignore_path repo checkIgnore e1.src_path = false)
    (h2i : should_ignore_path repo checkIgnore e2.src_path = false)
    (hlast : h.last_commit_time ≤ t1) (hord : t1 ≤ t2) :
    (t2 - t1 < min_commit_interval →
      (on_any_event repo checkIgnore (on_any_event repo checkIgnore h e1 t1) e2 t2).signal_count
        ≤ h.signal_count + 1)
    ∧ (min_commit_interval < t2 - t1 →
      (on_any_event repo checkIgnore (on_any_event repo checkIgnore h e1 t1) e2 t2).signal_count
        = h.signal_count + 2) := by
  have hdb1 : ¬ (t1 - h.last_commit_time < min_commit_interval) := by
    simp only [min_commit_interval]
    linarith
  have h1 : on_any_event repo checkIgnore h e1 t1 = ⟨t1, h.signal_count + 1⟩ := by
    unfold on_any_event
    simp [h1d, h1i, hdb1]
  constructor
  · intro hw
    exfalso
    simp only [min_commit_interval] at hw
    linarith
  · intro hw
    have hdb2 : ¬ (t2 - t1 < min_commit_interval) := by
      simp only [min_commit_interval] at hw ⊢
      linarith
    rw [h1]
    unfold on_any_event
    simp [h2d, h2i, hdb2]

/-- Witness for C9: a fresh handler and two non-ignored file events one
and three seconds in; both raise the signal since they are more than the
(zero) debounce interval apart. -/
theorem debounce_two_events_witness :
    (on_any_event ["r"] (fun _ => false)
        (on_any_event ["r"] (fun _ => false) ⟨0, 0⟩ ⟨false, ["r", "a.txt"]⟩ 1)
        ⟨false, ["r", "b.txt"]⟩ 3).signal_count = 0 + 2 :=
  (debounce_two_events ["r"] (fun _ => false) ⟨0, 0⟩ ⟨false, ["r", "a.txt"]⟩
      ⟨false, ["r", "b.txt"]⟩ 1 3 rfl rfl (by decide) (by decide)
      (by norm_num) (by norm_num)).2
    (by norm_num [min_commit_interval])

/-- C10: an event path outside the repository root (where computing the
relative path raises) is always reported as ignorable, and such an event
never changes the handler state, so it never sets the commit signal. -/
theorem outside_repo_events_ignored (repo : List String)
    (checkIgnore : List String → Bool) (path : List String)
    (h : relative_to path repo = none) :
    should_ignore_path repo checkIgnore path = true
    ∧ ∀ (hs : HandlerState) (isdir : Bool) (t : ℚ),
        on_any_event repo checkIgnore hs ⟨isdir, path⟩ t = hs := by
  have hig : should_ignore_path repo checkIgnore path = true := by
    unfold should_ignore_path
    split
    · rfl
    · rw [h]
  refine ⟨hig, ?_⟩
  intro hs isdir t
  unfold on_any_event
  cases isdir
  · simp [hig]
  · simp

/-- Witness for C10: a path outside the repository root is ignored. -/
theorem outside_repo_events_ignored_witness :
    should_ignore_path ["home", "repo"] (fun _ => false) ["tmp", "x.txt"] = true
    ∧ on_any_event ["home", "repo"] (fun _ => false) ⟨0, 0⟩ ⟨false, ["tmp", "x.txt"]⟩ 1 = ⟨0, 0⟩ :=
  ⟨(outside_repo_events_ignored _ _ _ (by decide)).1,
    (outside_repo_events_ignored ["home", "repo"] _ _ (by decide)).2 ⟨0, 0⟩ false 1⟩

/-- C8: any number of start calls made while the session is `Vibing`
leaves the session state (and in particular the stored branch name)
unchanged, issues no git commands, and each call returns the
"already vibing" report carrying the stored branch. -/
theorem start_while_vibing_idempotent (n : Nat) (branch : String)
    (obs : ObserverId) (ev : EventId) :
    iterate_start_while_vibing n branch obs ev =
      (SessionState.vibing branch obs ev,
        List.replicate n (start_vibing_from_state_vibing branch), []) := by
  induction n with
  | zero => rfl
  | succ n ih =>
    rw [iterate_start_while_vibing, ih]
    simp [start_call_vibing, List.replicate_succ']

/-! ### Classification of the stop workflow's outcomes -/

/-- The stop outcome leaves the original `Vibing` state (observer still
running) exactly on the hard-failure returns of steps 1-4 and 6, and
otherwise ends `Idle` with the observer stopped. -/
def stopClassOk {σ : Type} (branch : String) (obs : ObserverId) (ev : EventId)
    (r : StopOutcome σ) : Prop :=
  r.finalSession = (if isStepError r.msg then SessionState.vibing branch obs ev
    else SessionState.idle)
  ∧ r.observerStopped = ! isStepError r.msg

theorem stopFinish_class {σ : Type} (env : GitEnv σ) (g : σ) (branch : String)
    (obs : ObserverId) (ev : EventId) (cm : String) (sq : Int) (hc : Bool)
    (ws : List String) (pr : Option String) (tr : List (List String)) :
    stopClassOk branch obs ev (stopFinish env g branch obs ev cm sq hc ws pr tr) := by
  unfold stopClassOk stopFinish
  rcases hE : env.exec ["git", "checkout", "main"] g with ⟨⟨ok, out⟩, g2⟩
  cases ok <;> simp [isStepError]

theorem stopCreatePR_class {σ : Type} (env : GitEnv σ) (g : σ) (branch : String)
    (obs : ObserverId) (ev : EventId) (cm : String) (sq : Int) (hc : Bool)
    (ws : List String) (tr : List (List String)) :
    stopClassOk branch obs ev (stopCreatePR env g branch obs ev cm sq hc ws tr) := by
  unfold stopCreatePR
  exact stopFinish_class _ _ _ _ _ _ _ _ _ _ _

theorem stopRebasePush_class {σ : Type} (env : GitEnv σ) (g : σ) (branch : String)
    (obs : ObserverId) (ev : EventId) (cm : String) (sq : Int)
    (tr : List (List String)) :
    stopClassOk branch obs ev (stopRebasePush env g branch obs ev cm sq tr) := by
  unfold stopRebasePush
  rcases hR : env.exec ["git", "rebase", "main"] g with ⟨⟨rok, rout⟩, g2⟩
  cases rok
  · rcases hA : env.exec ["git", "rebase", "--abort"] g2 with ⟨⟨aok, aout⟩, g3⟩
    rcases hP : env.exec ["git", "push", "-f", "-u", "origin", branch] g3 with ⟨⟨pok, pout⟩, g4⟩
    cases pok
    · simp [hA, hP, stopClassOk, isStepError]
    · simp only [hA, hP]
      simp only [Bool.true_eq_false, if_neg, ite_false]
      exact stopCreatePR_class _ _ _ _ _ _ _ _ _ _
  · rcases hP : env.exec ["git", "push", "-f", "-u", "origin", branch] g2 with ⟨⟨pok, pout⟩, g4⟩
    cases pok
    · simp [hP, stopClassOk, isStepError]
    · simp only [hP]
      simp only [Bool.true_eq_false, if_neg, ite_false]
      exact stopCreatePR_class _ _ _ _ _ _ _ _ _ _

theorem stopCheckoutAndRebase_class {σ : Type} (env : GitEnv σ) (g : σ) (branch : String)
    (obs : ObserverId) (ev : EventId) (cm : String) (sq : Int)
    (tr : List (List String)) :
    stopClassOk branch obs ev (stopCheckoutAndRebase env g branch obs ev cm sq tr) := by
  unfold stopCheckoutAndRebase
  rcases hC : env.exec ["git", "checkout", "main"] g with ⟨⟨cok, cout⟩, g2⟩
  cases cok
  · simp [stopClassOk, isStepError]
  · rcases hL : env.exec ["git", "pull", "origin", "main"] g2 with ⟨⟨lok, lout⟩, g3⟩
    cases lok
    · simp [hL, stopClassOk, isStepError]
    · rcases hB : env.exec ["git", "checkout", branch] g3 with ⟨⟨bok, bout⟩, g4⟩
      cases bok
      · simp [hL, hB, stopClassOk, isStepError]
      · simp only [hL, hB]
        simp only [Bool.true_eq_false, if_neg, ite_false]
        exact stopRebasePush_class _ _ _ _ _ _ _ _

theorem stopSquash_class {σ : Type} (env : GitEnv σ) (g : σ) (branch : String)
    (obs : ObserverId) (ev : EventId) (cm : String) (base : String)
    (tr : List (List String)) :
    stopClassOk branch obs ev (stopSquash env g branch obs ev cm base tr) := by
  unfold stopSquash
  rcases hV : env.exec ["git", "rev-list", "--count", base ++ "..HEAD"] g with ⟨⟨vok, vout⟩, g2⟩
  cases vok
  · simp only [Bool.false_eq_true, if_neg, ite_false]
    exact stopCheckoutAndRebase_class _ _ _ _ _ _ _ _
  · simp only [if_pos]
    rcases hN : pyParseInt? (pyStrip vout) with _ | n
    · simp [stopClassOk, isStepError]
    · by_cases h1 : 1 < n
      · simp only [h1, if_pos]
        rcases hS : env.exec ["git", "reset", "--soft", base] g2 with ⟨⟨sok, sout⟩, g3⟩
        cases sok
        · simp [stopClassOk, isStepError]
        · rcases hM : env.exec ["git", "commit", "-m", cm, "--no-verify"] g3 with ⟨⟨mok, mout⟩, g4⟩
          cases mok
          · simp [hM, stopClassOk, isStepError]
          · rcases hD : env.exec ["git", "commit", "--amend", "--no-edit"] g4 with ⟨⟨dok, dout⟩, g5⟩
            cases dok
            · simp [hM, hD, stopClassOk, isStepError]
            · simp only [hM, hD]
              simp only [Bool.true_eq_false, if_neg, ite_false]
              exact stopCheckoutAndRebase_class _ _ _ _ _ _ _ _
      · simp only [h1, if_neg, ite_false]
        exact stopCheckoutAndRebase_class _ _ _ _ _ _ _ _

theorem stopFromVibing_class {σ : Type} (env : GitEnv σ) (g : σ) (branch : String)
    (obs : ObserverId) (ev : EventId) (cm : String) :
    stopClassOk branch obs ev (stopFromVibing env g branch obs ev cm) := by
  unfold stopFromVibing
  cases hOk : env.repoOk
  · simp [stopClassOk, isStepError]
  · rcases h1 : env.exec ["git", "merge-base", "main", "HEAD"] g with ⟨⟨ok1, out1⟩, g2⟩
    cases ok1
    · rcases h2 : env.exec ["git", "merge-base", "master", "HEAD"] g2 with ⟨⟨ok2, out2⟩, g3⟩
      cases ok2
      · simp [h2, stopClassOk, isStepError]
      · simp only [h2]
        simp only [Bool.true_eq_false, Bool.false_eq_true, if_neg, ite_false]
        exact stopSquash_class _ _ _ _ _ _ _ _
    · simp only [Bool.true_eq_false, if_neg, ite_false]
      exact stopSquash_class _ _ _ _ _ _ _ _

/-! ### A successful stop ends on the main branch -/

/-- The environment's `git checkout` is faithful: whenever a checkout
reports success, the current branch of the resulting git world is the
requested branch. -/
def checkoutFaithful {σ : Type} (env : GitEnv σ) : Prop :=
  ∀ (b : String) (g : σ), (env.exec ["git", "checkout", b] g).1.1 = true →
    env.currentBranch (env.exec ["git", "checkout", b] g).2 = b

/-- If this outcome is the success return, actual branch inspection of
its final git world reports "main". -/
def endsOnMain {σ : Type} (env : GitEnv σ) (r : StopOutcome σ) : Prop :=
  ∀ pr cm sq hc ws, r.msg = .stopped pr cm sq hc ws →
    env.currentBranch r.finalGit = "main"

theorem stopFinish_main {σ : Type} (env : GitEnv σ) (hco : checkoutFaithful env)
    (g : σ) (branch : String) (obs : ObserverId) (ev : EventId) (cm : String)
    (sq : Int) (hc : Bool) (ws : List String) (pr : Option String)
    (tr : List (List String)) :
    endsOnMain env (stopFinish env g branch obs ev cm sq hc ws pr tr) := by
  unfold endsOnMain stopFinish
  intro pr' cm' sq' hc' ws'
  have hfa := hco "main" g
  rcases hE : env.exec ["git", "checkout", "main"] g with ⟨⟨ok, out⟩, g2⟩
  rw [hE] at hfa
  cases ok
  · intro h
    simp at h
  · intro _
    exact hfa rfl

theorem stopCreatePR_main {σ : Type} (env : GitEnv σ) (hco : checkoutFaithful env)
    (g : σ) (branch : String) (obs : ObserverId) (ev : EventId) (cm : String)
    (sq : Int) (hc : Bool) (ws : List String) (tr : List (List String)) :
    endsOnMain env (stopCreatePR env g branch obs ev cm sq hc ws tr) := by
  unfold stopCreatePR
  exact stopFinish_main _ hco _ _ _ _ _ _ _ _ _ _

theorem stopRebasePush_main {σ : Type} (env : GitEnv σ) (hco : checkoutFaithful env)
    (g : σ) (branch : String) (obs : ObserverId) (ev : EventId) (cm : String)
    (sq : Int) (tr : List (List String)) :
    endsOnMain env (stopRebasePush env g branch obs ev cm sq tr) := by
  unfold stopRebasePush
  rcases hR : env.exec ["git", "rebase", "main"] g with ⟨⟨rok, rout⟩, g2⟩
  cases rok
  · rcases hA : env.exec ["git", "rebase", "--abort"] g2 with ⟨⟨aok, aout⟩, g3⟩
    rcases hP : env.exec ["git", "push", "-f", "-u", "origin", branch] g3 with ⟨⟨pok, pout⟩, g4⟩
    cases pok
    · intro pr cm' sq' hc' ws' h
      simp [hA, hP] at h
    · simp only [hA, hP]
      simp only [Bool.true_eq_false, if_neg, ite_false]
      exact stopCreatePR_main _ hco _ _ _ _ _ _ _ _ _
  · rcases hP : env.exec ["git", "push", "-f", "-u", "origin", branch] g2 with ⟨⟨pok, pout⟩, g4⟩
    cases pok
    · intro pr cm' sq' hc' ws' h
      simp [hP] at h
    · simp only [hP]
      simp only [Bool.true_eq_false, if_neg, ite_false]
      exact stopCreatePR_main _ hco _ _ _ _ _ _ _ _ _

theorem stopCheckoutAndRebase_main {σ : Type} (env : GitEnv σ) (hco : checkoutFaithful env)
    (g : σ) (branch : String) (obs : ObserverId) (ev : EventId) (cm : String)
    (sq : Int) (tr : List (List String)) :
    endsOnMain env (stopCheckoutAndRebase env g branch obs ev cm sq tr) := by
  unfold stopCheckoutAndRebase
  rcases hC : env.exec ["git", "checkout", "main"] g with ⟨⟨cok, cout⟩, g2⟩
  cases cok
  · intro pr cm' sq' hc' ws' h
    simp at h
  · rcases hL : env.exec ["git", "pull", "origin", "main"] g2 with ⟨⟨lok, lout⟩, g3⟩
    cases lok
    · intro pr cm' sq' hc' ws' h
      simp [hL] at h
    · rcases hB : env.exec ["git", "checkout", branch] g3 with ⟨⟨bok, bout⟩, g4⟩
      cases bok
      · intro pr cm' sq' hc' ws' h
        simp [hL, hB] at h
      · simp only [hL, hB]
        simp only [Bool.true_eq_false, if_neg, ite_false]
        exact stopRebasePush_main _ hco _ _ _ _ _ _ _

theorem stopSquash_main {σ : Type} (env : GitEnv σ) (hco : checkoutFaithful env)
    (g : σ) (branch : String) (obs : ObserverId) (ev : EventId) (cm : String)
    (base : String) (tr : List (List String)) :
    endsOnMain env (stopSquash env g branch obs ev cm base tr) := by
  unfold stopSquash
  rcases hV : env.exec ["git", "rev-list", "--count", base ++ "..HEAD"] g with ⟨⟨vok, vout⟩, g2⟩
  cases vok
  · simp only [Bool.false_eq_true, if_neg, ite_false]
    exact stopCheckoutAndRebase_main _ hco _ _ _ _ _ _ _
  · simp only [if_pos]
    rcases hN : pyParseInt? (pyStrip vout) with _ | n
    · intro pr cm' sq' hc' ws' h
      simp at h
    · by_cases h1 : 1 < n
      · simp only [h1, if_pos]
        rcases hS : env.exec ["git", "reset", "--soft", base] g2 with ⟨⟨sok, sout⟩, g3⟩
        cases sok
        · intro pr cm' sq' hc' ws' h
          simp at h
        · rcases hM : env.exec ["git", "commit", "-m", cm, "--no-verify"] g3 with ⟨⟨mok, mout⟩, g4⟩
          cases mok
          · intro pr cm' sq' hc' ws' h
            simp [hM] at h
          · rcases hD : env.exec ["git", "commit", "--amend", "--no-edit"] g4 with ⟨⟨dok, dout⟩, g5⟩
            cases dok
            · intro pr cm' sq' hc' ws' h
              simp [hM, hD] at h
            · simp only [hM, hD]
              simp only [Bool.true_eq_false, if_neg, ite_false]
              exact stopCheckoutAndRebase_main _ hco _ _ _ _ _ _ _
      · simp only [h1, if_neg, ite_false]
        exact stopCheckoutAndRebase_main _ hco _ _ _ _ _ _ _

theorem stopFromVibing_main {σ : Type} (env : GitEnv σ) (hco : checkoutFaithful env)
    (g : σ) (branch : String) (obs : ObserverId) (ev : EventId) (cm : String) :
    endsOnMain env (stopFromVibing env g branch obs ev cm) := by
  unfold stopFromVibing
  cases hOk : env.repoOk
  · intro pr cm' sq' hc' ws' h
    simp at h
  · rcases h1 : env.exec ["git", "merge-base", "main", "HEAD"] g with ⟨⟨ok1, out1⟩, g2⟩
    cases ok1
    · rcases h2 : env.exec ["git", "merge-base", "master", "HEAD"] g2 with ⟨⟨ok2, out2⟩, g3⟩
      cases ok2
      · intro pr cm' sq' hc' ws' h
        simp [h2] at h
      · simp only [h2]
        simp only [Bool.true_eq_false, Bool.false_eq_true, if_neg, ite_false]
        exact stopSquash_main _ hco _ _ _ _ _ _ _
    · simp only [Bool.true_eq_false, if_neg, ite_false]
      exact stopSquash_main _ hco _ _ _ _ _ _ _

/-- Counterexample for C1: with every git command failing, stop from
`Vibing` aborts at step 1 with the specific "Error finding branch point"
message, but the session state is NOT reset to `Idle` — it remains the
original `Vibing` state. -/
theorem stop_step_failure_not_idle_cex :
    (stop_vibing unitEnv () (SessionState.vibing "vibe-1" 0 0) "Ship it").msg =
      .errFindingBranchPoint "fatal: unable to run"
    ∧ (stop_vibing unitEnv () (SessionState.vibing "vibe-1" 0 0) "Ship it").finalSession
        ≠ SessionState.idle := by
  refine ⟨rfl, ?_⟩
  decide

/-- C1 (amended): every hard failure of stop at steps 1-4 or 6 aborts
the operation with a specific error naming the failing step, but leaves
the session state unchanged as the original `Vibing` state with the
observer still running; the state is reset to `Idle` (with the observer
stopped) exactly on the non-step-error outcomes, i.e. on success and on
an unexpected exception. -/
theorem stop_step_failure_leaves_state_vibing {σ : Type} (env : GitEnv σ) (g : σ)
    (branch : String) (obs : ObserverId) (ev : EventId) (cm : String) :
    (stop_vibing env g (.vibing branch obs ev) cm).finalSession =
      (if isStepError (stop_vibing env g (.vibing branch obs ev) cm).msg then
        SessionState.vibing branch obs ev
      else SessionState.idle)
    ∧ (stop_vibing env g (.vibing branch obs ev) cm).observerStopped =
        ! isStepError (stop_vibing env g (.vibing branch obs ev) cm).msg :=
  stopFromVibing_class env g branch obs ev cm

/-- C2: under a checkout-faithful environment, every stop invocation
from any state that returns the success result leaves the repository
with current branch "main", by actual branch inspection of the final git
world. -/
theorem stop_success_ends_on_main {σ : Type} (env : GitEnv σ)
    (hco : checkoutFaithful env) (g : σ) (sess : SessionState) (cm : String)
    {pr : Option String} {cm' : String} {sq : Int} {hc : Bool} {ws : List String}
    (h : (stop_vibing env g sess cm).msg = .stopped pr cm' sq hc ws) :
    env.currentBranch (stop_vibing env g sess cm).finalGit = "main" := by
  cases sess with
  | idle => simp [stop_vibing] at h
  | dirty b c => simp [stop_vibing] at h
  | vibing branch obs ev =>
      exact stopFromVibing_main env hco g branch obs ev cm pr cm' sq hc ws h

/-- A concrete git world carrying the current branch, with an
environment whose commands all succeed and whose `checkout` updates the
current branch. -/
structure GitSt where
  cur : String
deriving DecidableEq, Repr

/-- An all-success command interpreter over `GitSt`. -/
def happyExec (cmd : List String) (g : GitSt) : (Bool × String) × GitSt :=
  match cmd with
  | ["git", "checkout", b] => ((true, ""), { cur := b })
  | ["git", "merge-base", "main", "HEAD"] => ((true, "basecommit"), g)
  | ["git", "rev-list", "--count", _] => ((true, "3"), g)
  | ["git", "reset", "--soft", _] => ((true, ""), g)
  | ["git", "commit", "-m", _, "--no-verify"] => ((true, ""), g)
  | ["git", "commit", "--amend", "--no-edit"] => ((true, ""), g)
  | ["git", "pull", "origin", "main"] => ((true, ""), g)
  | ["git", "rebase", "main"] => ((true, ""), g)
  | ["git", "push", "-f", "-u", "origin", _] => ((true, ""), g)
  | ["gh", "pr", "create", "--title", _, "--body", _] => ((true, "https://example.com/pr/1"), g)
  | _ => ((false, "unknown command"), g)

/-- The all-success environment. -/
def happyEnv : GitEnv GitSt :=
  { repoOk := true, exec := happyExec, currentBranch := GitSt.cur }

theorem happyEnv_checkoutFaithful : checkoutFaithful happyEnv := by
  intro b g _
  rfl

/-- Witness for C2: running the whole stop workflow in the all-success
environment from a vibe branch succeeds and actual inspection of the
final world's current branch yields "main". -/
theorem stop_success_ends_on_main_witness :
    happyEnv.currentBranch
      (stop_vibing happyEnv ⟨"vibe-9"⟩ (SessionState.vibing "vibe-9" 0 0)
        "Add feature X").finalGit = "main" :=
  stop_success_ends_on_main happyEnv happyEnv_checkoutFaithful ⟨"vibe-9"⟩
    (SessionState.vibing "vibe-9" 0 0) "Add feature X" rfl

end VibeGit
